import Mathlib

set_option linter.unusedVariables false

/-!
Shallow embedding of the OData client of this repository (src/src, the
`SAPODataClient` class plus its helper types). HTTP traffic is modelled by an
oracle: each network exchange an operation performs is passed in as an
`HttpOutcome` value, and the axios interceptors of `setupInterceptors` are
applied to every exchange by `performExchange`. Dynamic JavaScript values
(xml2js parse trees, JSON response bodies) are modelled by `JsVal`, with
JavaScript truthiness, property access (throwing on `undefined` receivers) and
string coercion made explicit.
-/

namespace SAPODataClient

/-- Dynamic JavaScript value: `undefined`, a string, an array or an object. -/
inductive JsVal : Type where
  | undefined : JsVal
  | jstr : String → JsVal
  | jarr : List JsVal → JsVal
  | jobj : List (String × JsVal) → JsVal

/-- Object field lookup; a missing field reads as `undefined`. -/
def lookupField : List (String × JsVal) → String → JsVal
  | [], _ => .undefined
  | (k, v) :: rest, key => if k = key then v else lookupField rest key

/-- JavaScript truthiness for the values `JsVal` can take: `undefined` and the
empty string are falsy, arrays and objects are truthy. -/
def jsTruthy : JsVal → Bool
  | .undefined => false
  | .jstr s => !(s == "")
  | .jarr _ => true
  | .jobj _ => true

/-- Optional-chained property access `v?.k`: never throws, a nullish or
non-object receiver yields `undefined`. -/
def optGet (v : JsVal) (k : String) : JsVal :=
  match v with
  | .jobj fs => lookupField fs k
  | _ => .undefined

/-- Optional-chained index access `v?.[i]`. Strings index to one-character
strings as in JavaScript. -/
def optIdx (v : JsVal) (i : Nat) : JsVal :=
  match v with
  | .jarr xs => xs.getD i .undefined
  | .jstr s => if h : i < s.data.length then .jstr (String.singleton (s.data.get ⟨i, h⟩)) else .undefined
  | _ => .undefined

/-- Plain property access `v.k`: throws a TypeError when the receiver is
`undefined`, otherwise behaves like `optGet`. -/
def jsGetE (v : JsVal) (k : String) : Except Unit JsVal :=
  match v with
  | .undefined => .error ()
  | .jobj fs => .ok (lookupField fs k)
  | _ => .ok .undefined

/-- The JavaScript `a || b` on values. -/
def jsOr (v d : JsVal) : JsVal := if jsTruthy v then v else d

/-- Strict equality test against the string literal `false`, as used by
`prop.$.Nullable !== "false"` (negated). -/
def isStrFalse : JsVal → Bool
  | .jstr s => s == "false"
  | _ => false

mutual

/-- JavaScript string coercion of a value, as in template literals. -/
def jsToString : JsVal → String
  | .undefined => "undefined"
  | .jstr s => s
  | .jarr xs => jsArrToString xs
  | .jobj _ => "[object Object]"

/-- Array-to-string coercion: elements joined with commas. -/
def jsArrToString : List JsVal → String
  | [] => ""
  | [x] => jsElemToString x
  | x :: y :: rest => jsElemToString x ++ "," ++ jsArrToString (y :: rest)

/-- Element coercion inside `Array.prototype.join`: nullish becomes empty. -/
def jsElemToString : JsVal → String
  | .undefined => ""
  | .jstr s => s
  | .jarr xs => jsArrToString xs
  | .jobj _ => "[object Object]"

end

/-- The `.map` of a JavaScript array under a possibly-throwing callback:
calling it on a non-array throws. -/
def jsMapListE {α : Type} (f : JsVal → Except Unit α) : List JsVal → Except Unit (List α)
  | [] => .ok []
  | x :: xs => do
    let y ← f x
    let ys ← jsMapListE f xs
    pure (y :: ys)

/-- Mapping over a dynamic value: succeeds only on arrays. -/
def jsMapE {α : Type} (v : JsVal) (f : JsVal → Except Unit α) : Except Unit (List α) :=
  match v with
  | .jarr xs => jsMapListE f xs
  | _ => .error ()

/-- A successful (2xx) HTTP response as seen by the response interceptor:
its body plus the two headers the interceptor reads. -/
structure HttpResponse where
  data : JsVal
  csrfHeader : Option String
  setCookie : Option (List String)

/-- A failed axios request: `status` is `error.response?.status` (present iff
the server answered), `statusText` the matching status text, `hasRequest`
models `error.request`, `message` the plain error message. -/
structure HttpFailure where
  status : Option Nat
  statusText : String
  hasRequest : Bool
  message : String

/-- Outcome of one HTTP exchange. -/
inductive HttpOutcome : Type where
  | success : HttpResponse → HttpOutcome
  | failure : HttpFailure → HttpOutcome

/-- Mutable session state of the client: the `connected` flag, the CSRF token
and the cookie jar. -/
structure ClientState where
  connected : Bool
  csrfToken : Option String
  cookies : List String

/-- Response interceptor, success path: store a CSRF token header unless it is
absent, empty or the `Required` placeholder; replace the cookie jar with the
name=value prefix of each `Set-Cookie` header when that header is present. -/
def applyResponseOk (s : ClientState) (r : HttpResponse) : ClientState :=
  let s1 :=
    match r.csrfHeader with
    | some t => if t != "" && t != "Required" then { s with csrfToken := some t } else s
    | none => s
  match r.setCookie with
  | some cs => { s1 with cookies := cs.map fun c => ((c.splitOn ";").headD "") }
  | none => s1

/-- Response interceptor, error path: a 401 clears the whole session state. -/
def applyResponseErr (s : ClientState) (e : HttpFailure) : ClientState :=
  if e.status = some 401 then ⟨false, none, []⟩ else s

/-- One HTTP exchange as the client performs it: the interceptors run on the
outcome and the session state is updated accordingly. -/
def performExchange (s : ClientState) (o : HttpOutcome) : ClientState × HttpOutcome :=
  match o with
  | .success r => (applyResponseOk s r, o)
  | .failure e => (applyResponseErr s e, o)

/-- The private `getErrorMessage` helper on axios errors. -/
def getErrorMessage (e : HttpFailure) : String :=
  match e.status with
  | some st => "HTTP " ++ toString st ++ ": " ++ e.statusText
  | none =>
    if e.hasRequest then "No response received from server"
    else if e.message == "" then "Unknown error" else e.message

/-- The message of the `ensureConnected` guard. -/
def notConnectedMessage : String := "Not connected to SAP OData service. Use sap_connect first."

/-! URL building: percent encoders. -/

/-- UTF-8 bytes of a character. -/
def utf8Bytes (c : Char) : List Nat :=
  let n := c.toNat
  if n < 0x80 then [n]
  else if n < 0x800 then [0xC0 + n / 0x40, 0x80 + n % 0x40]
  else if n < 0x10000 then [0xE0 + n / 0x1000, 0x80 + (n / 0x40) % 0x40, 0x80 + n % 0x40]
  else [0xF0 + n / 0x40000, 0x80 + (n / 0x1000) % 0x40, 0x80 + (n / 0x40) % 0x40, 0x80 + n % 0x40]

/-- Uppercase hexadecimal digit. -/
def hexDigit (n : Nat) : Char :=
  if n < 10 then Char.ofNat (48 + n) else Char.ofNat (55 + n)

/-- Percent escape of one byte, uppercase hex. -/
def percByte (b : Nat) : String :=
  "%" ++ String.singleton (hexDigit (b / 16)) ++ String.singleton (hexDigit (b % 16))

/-- Bytes left verbatim by the urlencoded serializer of `URLSearchParams`:
ASCII alphanumerics and asterisk, hyphen, period, underscore. -/
def urlencodedSafe (b : Nat) : Bool :=
  decide ((0x30 ≤ b ∧ b ≤ 0x39) ∨ (0x41 ≤ b ∧ b ≤ 0x5A) ∨ (0x61 ≤ b ∧ b ≤ 0x7A) ∨
    b = 0x2A ∨ b = 0x2D ∨ b = 0x2E ∨ b = 0x5F)

/-- One byte under the application/x-www-form-urlencoded serializer: space
becomes a plus sign, safe bytes stay, the rest are percent escaped. -/
def formUrlEncodeByte (b : Nat) : String :=
  if b = 0x20 then "+"
  else if urlencodedSafe b then String.singleton (Char.ofNat b)
  else percByte b

/-- The application/x-www-form-urlencoded serialization of one string, as
`URLSearchParams.toString` applies to each name and value. -/
def formUrlEncode (s : String) : String :=
  String.join (((s.data.map utf8Bytes).flatten).map formUrlEncodeByte)

/-- `URLSearchParams.toString`: pairs in insertion order, each side
form-urlencoded, joined by ampersands. -/
def serializeParams (ps : List (String × String)) : String :=
  String.intercalate "&" (ps.map fun kv => formUrlEncode kv.1 ++ "=" ++ formUrlEncode kv.2)

/-- The apostrophe character as a string. -/
def squote : String := String.singleton (Char.ofNat 39)

/-- Bytes left verbatim by `encodeURIComponent`: ASCII alphanumerics and
the characters hyphen, underscore, period, exclamation, tilde, asterisk,
apostrophe and parentheses. -/
def encodeURIComponentSafe (b : Nat) : Bool :=
  decide ((0x30 ≤ b ∧ b ≤ 0x39) ∨ (0x41 ≤ b ∧ b ≤ 0x5A) ∨ (0x61 ≤ b ∧ b ≤ 0x7A) ∨
    b = 0x2D ∨ b = 0x5F ∨ b = 0x2E ∨ b = 0x21 ∨ b = 0x7E ∨ b = 0x2A ∨ b = 0x27 ∨
    b = 0x28 ∨ b = 0x29)

/-- JavaScript `encodeURIComponent` on the UTF-8 bytes of a string. -/
def encodeURIComponent (s : String) : String :=
  String.join (((s.data.map utf8Bytes).flatten).map fun b =>
    if encodeURIComponentSafe b then String.singleton (Char.ofNat b) else percByte b)

/-! Query options and data-operation URLs. -/

/-- The `ODataQueryOptions` value object of src/src (types). -/
structure ODataQueryOptions where
  select : Option (List String)
  filter : Option String
  orderby : Option String
  top : Option Int
  skip : Option Int
  expand : Option (List String)

/-- The parameter list `queryEntitySet` feeds into `URLSearchParams`, with the
exact truthiness tests of the source: a select or expand list must be present
and non-empty, a filter or orderby string must be present and non-empty, a top
or skip number must be present and non-zero. -/
def buildQueryParams (o : ODataQueryOptions) : List (String × String) :=
  (match o.select with
   | some l => if l.length > 0 then [("$select", String.intercalate "," l)] else []
   | none => []) ++
  (match o.filter with
   | some f => if f != "" then [("$filter", f)] else []
   | none => []) ++
  (match o.orderby with
   | some f => if f != "" then [("$orderby", f)] else []
   | none => []) ++
  (match o.top with
   | some n => if n != 0 then [("$top", toString n)] else []
   | none => []) ++
  (match o.skip with
   | some n => if n != 0 then [("$skip", toString n)] else []
   | none => []) ++
  (match o.expand with
   | some l => if l.length > 0 then [("$expand", String.intercalate "," l)] else []
   | none => [])

/-- The serialized query string of `queryEntitySet`. -/
def queryString (o : ODataQueryOptions) : String := serializeParams (buildQueryParams o)

/-- The request URL `queryEntitySet` builds. -/
def queryEntitySetUrl (serviceName entitySet : String) (o : ODataQueryOptions) : String :=
  serviceName ++ "/" ++ entitySet ++
    (if queryString o == "" then "" else "?" ++ queryString o)

/-- The comma-joined key predicate, each entry `key='encodedValue'`. -/
def keyPredicate (keyValues : List (String × String)) : String :=
  String.intercalate "," (keyValues.map fun kv =>
    kv.1 ++ "=" ++ squote ++ encodeURIComponent kv.2 ++ squote)

/-- The request URL `getEntity` builds (key serialization inlined as in the
source). -/
def getEntityUrl (serviceName entitySet : String) (keyValues : List (String × String)) : String :=
  let keyString := String.intercalate "," (keyValues.map fun kv =>
    kv.1 ++ "=" ++ squote ++ encodeURIComponent kv.2 ++ squote)
  serviceName ++ "/" ++ entitySet ++ "(" ++ keyString ++ ")"

/-- The request URL `updateEntity` builds (key serialization inlined as in the
source). -/
def updateEntityUrl (serviceName entitySet : String) (keyValues : List (String × String)) : String :=
  let keyString := String.intercalate "," (keyValues.map fun kv =>
    kv.1 ++ "=" ++ squote ++ encodeURIComponent kv.2 ++ squote)
  serviceName ++ "/" ++ entitySet ++ "(" ++ keyString ++ ")"

/-- The request URL `deleteEntity` builds (key serialization inlined as in the
source). -/
def deleteEntityUrl (serviceName entitySet : String) (keyValues : List (String × String)) : String :=
  let keyString := String.intercalate "," (keyValues.map fun kv =>
    kv.1 ++ "=" ++ squote ++ encodeURIComponent kv.2 ++ squote)
  serviceName ++ "/" ++ entitySet ++ "(" ++ keyString ++ ")"

/-! Connection lifecycle. -/

/-- The `connect` method. Oracle arguments: `csrfO` is the outcome of the
CSRF-token prefetch (performed only when CSRF handling is enabled, any failure
swallowed), `catalogO` the outcome of the catalog-service probe, `baseO` the
outcome of the bare base-path probe (consulted only when the catalog probe
throws). A base-probe 404 counts as success; 401 and 403 raise dedicated
errors; any other failure is re-raised. The outer catch wraps the message and
resets the whole session state. -/
def connect (enableCSRF : Bool) (s0 : ClientState) (csrfO catalogO baseO : HttpOutcome) :
    Except String Unit × ClientState :=
  let s1 := if enableCSRF then (performExchange s0 csrfO).1 else s0
  match performExchange s1 catalogO with
  | (s2, .success _) => (.ok (), { s2 with connected := true })
  | (s2, .failure _) =>
    match performExchange s2 baseO with
    | (s3, .success _) => (.ok (), { s3 with connected := true })
    | (s3, .failure e) =>
      if e.status = some 404 then (.ok (), { s3 with connected := true })
      else if e.status = some 401 then
        (.error ("Failed to connect to SAP OData service: " ++
          "Authentication failed - check username/password"), ⟨false, none, []⟩)
      else if e.status = some 403 then
        (.error ("Failed to connect to SAP OData service: " ++
          "Access forbidden - check user authorizations"), ⟨false, none, []⟩)
      else
        (.error ("Failed to connect to SAP OData service: " ++ getErrorMessage e),
          ⟨false, none, []⟩)

/-- The `isConnected` method. Returns the boolean answer, the state after the
call, and how many network requests the call performed. When the cached flag
is already false it answers immediately; otherwise it probes the base path:
success or 404 keep the connection alive, anything else flips it off. -/
def isConnected (s : ClientState) (probe : HttpOutcome) : Bool × ClientState × Nat :=
  if s.connected then
    match performExchange s probe with
    | (s2, .success _) => (true, s2, 1)
    | (s2, .failure e) =>
      if e.status = some 404 then (true, s2, 1)
      else if e.status = some 401 ∨ e.status = some 403 then
        (false, { s2 with connected := false }, 1)
      else (false, { s2 with connected := false }, 1)
  else (false, s, 0)

/-! Data operations. Each checks `ensureConnected`, performs one exchange and
wraps failures with its operation-specific message. -/

/-- The `queryEntitySet` method (effect part; the URL it requests is
`queryEntitySetUrl`). -/
def queryEntitySet (s : ClientState) (serviceName entitySet : String)
    (options : ODataQueryOptions) (net : HttpOutcome) : Except String JsVal × ClientState :=
  if s.connected then
    match performExchange s net with
    | (s2, .success r) => (.ok r.data, s2)
    | (s2, .failure e) =>
      (.error ("Failed to query entity set " ++ entitySet ++ ": " ++ getErrorMessage e), s2)
  else (.error notConnectedMessage, s)

/-- The `getEntity` method (effect part; the URL it requests is
`getEntityUrl`). -/
def getEntity (s : ClientState) (serviceName entitySet : String)
    (keyValues : List (String × String)) (net : HttpOutcome) :
    Except String JsVal × ClientState :=
  if s.connected then
    match performExchange s net with
    | (s2, .success r) => (.ok r.data, s2)
    | (s2, .failure e) => (.error ("Failed to get entity: " ++ getErrorMessage e), s2)
  else (.error notConnectedMessage, s)

/-- The `createEntity` method. -/
def createEntity (s : ClientState) (serviceName entitySet : String) (data : JsVal)
    (net : HttpOutcome) : Except String JsVal × ClientState :=
  if s.connected then
    match performExchange s net with
    | (s2, .success r) => (.ok r.data, s2)
    | (s2, .failure e) => (.error ("Failed to create entity: " ++ getErrorMessage e), s2)
  else (.error notConnectedMessage, s)

/-- The `updateEntity` method (effect part; the URL it requests is
`updateEntityUrl`). -/
def updateEntity (s : ClientState) (serviceName entitySet : String)
    (keyValues : List (String × String)) (data : JsVal) (net : HttpOutcome) :
    Except String JsVal × ClientState :=
  if s.connected then
    match performExchange s net with
    | (s2, .success r) => (.ok r.data, s2)
    | (s2, .failure e) => (.error ("Failed to update entity: " ++ getErrorMessage e), s2)
  else (.error notConnectedMessage, s)

/-- The `deleteEntity` method (effect part; the URL it requests is
`deleteEntityUrl`). -/
def deleteEntity (s : ClientState) (serviceName entitySet : String)
    (keyValues : List (String × String)) (net : HttpOutcome) :
    Except String Unit × ClientState :=
  if s.connected then
    match performExchange s net with
    | (s2, .success _) => (.ok (), s2)
    | (s2, .failure e) => (.error ("Failed to delete entity: " ++ getErrorMessage e), s2)
  else (.error notConnectedMessage, s)

/-- The `callFunction` method. -/
def callFunction (s : ClientState) (serviceName functionName : String)
    (parameters : List (String × String)) (net : HttpOutcome) :
    Except String JsVal × ClientState :=
  if s.connected then
    match performExchange s net with
    | (s2, .success r) => (.ok r.data, s2)
    | (s2, .failure e) =>
      (.error ("Failed to call function " ++ functionName ++ ": " ++ getErrorMessage e), s2)
  else (.error notConnectedMessage, s)

/-! Service discovery (`getServices`). -/

/-- A discovered service record (`ODataService` of src/src, with the dynamic
fields kept dynamic). -/
structure ODataService where
  name : JsVal
  title : JsVal
  version : JsVal
  url : String

/-- The discovery result (`ODataServiceList` of src/src). -/
structure ODataServiceList where
  services : List ODataService
  source : Option String
  catalogUrl : Option String
  message : Option String

/-- The four catalog-service path variants tried in order. -/
def catalogPaths : List String :=
  ["../iwfnd/catalogservice;v=2/ServiceCollection",
   "../IWFND/CATALOGSERVICE;v=2/ServiceCollection",
   "../iwfnd/catalogservice/ServiceCollection",
   "../IWFND/CATALOGSERVICE/ServiceCollection"]

/-- The fixed list of well-known service names probed when no catalog path
works. -/
def commonServices : List String :=
  ["GWSAMPLE_BASIC", "GWDEMO", "RMTSAMPLEFLIGHT", "API_MATERIAL_SRV",
   "API_BUSINESS_PARTNER", "API_SALES_ORDER_SRV", "ZMM_MATERIAL_SRV",
   "ZSD_SALES_SRV", "ZFI_GL_SRV"]

/-- Mapping of one raw catalog record to a service descriptor: name from `ID`,
title from `Title` falling back to `ID`, version from `Version`, URL from the
base URL and the stringified `ID`. Throws when the record is `undefined`. -/
def extractCatalogRecord (baseUrl : String) (service : JsVal) : Except Unit ODataService := do
  let id ← jsGetE service "ID"
  let title ← jsGetE service "Title"
  let version ← jsGetE service "Version"
  pure ⟨id, if jsTruthy title then title else id, version, baseUrl ++ jsToString id ++ "/"⟩

/-- Handling of one successful catalog response body: if `data.d.results` is
truthy, map it; a throwing map is caught by the per-path handler, and a failed
shape check simply falls through — both continue with the next path. -/
def catalogStep (baseUrl : String) (data : JsVal) : Option (List ODataService) :=
  let d := optGet data "d"
  let results := optGet d "results"
  if jsTruthy data && jsTruthy d && jsTruthy results then
    match jsMapE results (extractCatalogRecord baseUrl) with
    | .ok svcs => some svcs
    | .error _ => none
  else none

/-- Sequential walk over the catalog path variants, stopping at the first one
that yields a mapped results array; every exchange runs the interceptors. -/
def foldCatalog (baseUrl : String) : ClientState → List (String × HttpOutcome) →
    Option (List ODataService × String) × ClientState
  | s, [] => (none, s)
  | s, (path, o) :: rest =>
    match performExchange s o with
    | (s2, .success resp) =>
      match catalogStep baseUrl resp.data with
      | some svcs => (some (svcs, path), s2)
      | none => foldCatalog baseUrl s2 rest
    | (s2, .failure _) => foldCatalog baseUrl s2 rest

/-- Sequential probe of the well-known service names, collecting the ones
whose existence check does not error. -/
def foldCommon (baseUrl : String) : ClientState → List (String × HttpOutcome) →
    List ODataService × ClientState
  | s, [] => ([], s)
  | s, (nm, o) :: rest =>
    match performExchange s o with
    | (s2, .success _) =>
      let (found, s3) := foldCommon baseUrl s2 rest
      (⟨.jstr nm, .jstr nm, .undefined, baseUrl ++ nm ++ "/"⟩ :: found, s3)
    | (s2, .failure _) => foldCommon baseUrl s2 rest

/-- The diagnostic message of the empty discovery result. -/
def noneFoundMessage : String :=
  "No services found. The base URL exists but specific services need to be discovered through SAP GUI or by testing known service names."

/-- The `getServices` method: catalog variants first, then well-known name
probes, then the tagged empty result. `catalogOs` and `commonOs` are the
oracle outcomes for the respective candidate requests, in order. -/
def getServices (baseUrl : String) (s : ClientState)
    (catalogOs commonOs : List HttpOutcome) : Except String ODataServiceList × ClientState :=
  if s.connected then
    match foldCatalog baseUrl s (catalogPaths.zip catalogOs) with
    | (some (svcs, path), s2) => (.ok ⟨svcs, some "gateway_catalog", some path, none⟩, s2)
    | (none, s2) =>
      match foldCommon baseUrl s2 (commonServices.zip commonOs) with
      | (found, s3) =>
        if found.length > 0 then (.ok ⟨found, some "common_services_test", none, none⟩, s3)
        else (.ok ⟨[], some "none_found", none, some noneFoundMessage⟩, s3)
  else (.error notConnectedMessage, s)

/-! Metadata retrieval and extraction. -/

/-- A property of an entity type (`ODataProperty` of src/src; name and type
stay dynamic, nullable is the computed boolean). -/
structure ODataProperty where
  name : JsVal
  type : JsVal
  nullable : Bool

/-- An entity type (`ODataEntity` of src/src). -/
structure ODataEntity where
  name : JsVal
  properties : List ODataProperty

/-- A function import (`ODataFunction` of src/src). -/
structure ODataFunction where
  name : JsVal
  returnType : JsVal

/-- The extracted metadata model (`ODataMetadata` of src/src): entity types,
function imports, and the raw parse tree attached only on extraction failure. -/
structure ODataMetadata where
  entities : List ODataEntity
  functions : List ODataFunction
  raw : Option JsVal

/-- The schema node navigation of `extractMetadata`, fully optional-chained. -/
def schemaOf (parsed : JsVal) : JsVal :=
  optIdx (optGet (optIdx (optGet (optGet parsed "edmx:Edmx") "edmx:DataServices") 0) "Schema") 0

/-- Extraction of one property: reads `Name`, `Type` and `Nullable` from the
attribute object, throwing when the attribute object is `undefined`; nullable
is true unless the attribute is exactly the string `false`. -/
def extractPropertyE (prop : JsVal) : Except Unit ODataProperty := do
  let attrs ← jsGetE prop "$"
  let nm ← jsGetE attrs "Name"
  let ty ← jsGetE attrs "Type"
  let nu ← jsGetE attrs "Nullable"
  pure ⟨nm, ty, !(isStrFalse nu)⟩

/-- Extraction of one entity type: its attribute `Name` plus the mapped
`Property` array (defaulting to empty when falsy). -/
def extractEntityE (entity : JsVal) : Except Unit ODataEntity := do
  let attrs ← jsGetE entity "$"
  let nm ← jsGetE attrs "Name"
  let propsRaw ← jsGetE entity "Property"
  let props ← jsMapE (jsOr propsRaw (.jarr [])) extractPropertyE
  pure ⟨nm, props⟩

/-- Extraction of one function import: attribute `Name` and `ReturnType`. -/
def extractFunctionE (func : JsVal) : Except Unit ODataFunction := do
  let attrs ← jsGetE func "$"
  let nm ← jsGetE attrs "Name"
  let rt ← jsGetE attrs "ReturnType"
  pure ⟨nm, rt⟩

/-- The throwing part of `extractMetadata`: entity types from
`schema.EntityType`, function imports from
`schema.EntityContainer?.[0]?.FunctionImport`, both defaulted to empty arrays
when falsy and then mapped. -/
def extractMetadataCore (parsed : JsVal) : Except Unit (List ODataEntity × List ODataFunction) := do
  let schema := schemaOf parsed
  let etRaw ← jsGetE schema "EntityType"
  let entityTypes := jsOr etRaw (.jarr [])
  let ecRaw ← jsGetE schema "EntityContainer"
  let functionImports := jsOr (optGet (optIdx ecRaw 0) "FunctionImport") (.jarr [])
  let entities ← jsMapE entityTypes extractEntityE
  let functions ← jsMapE functionImports extractFunctionE
  pure (entities, functions)

/-- The private `extractMetadata` method: a falsy schema yields the empty
model without raw; an extraction failure yields the empty model annotated
with the raw parse tree. -/
def extractMetadata (parsed : JsVal) : ODataMetadata :=
  if jsTruthy (schemaOf parsed) then
    match extractMetadataCore parsed with
    | .ok (es, fs) => ⟨es, fs, none⟩
    | .error _ => ⟨[], [], some parsed⟩
  else ⟨[], [], none⟩

/-- The `getServiceMetadata` method: fetches the metadata document (oracle
`net`), then parses it (oracle `parsed`, standing for the external xml2js
call on the response body). A failed fetch or a failed parse is wrapped by the
catch into a thrown error; a successful parse is fed to `extractMetadata`. -/
def getServiceMetadata (s : ClientState) (net : HttpOutcome)
    (parsed : Except String JsVal) : Except String ODataMetadata × ClientState :=
  if s.connected then
    match performExchange s net with
    | (s2, .success _) =>
      match parsed with
      | .ok tree => (.ok (extractMetadata tree), s2)
      | .error m =>
        (.error ("Failed to get service metadata: " ++
          (if m == "" then "Unknown error" else m)), s2)
    | (s2, .failure e) =>
      (.error ("Failed to get service metadata: " ++ getErrorMessage e), s2)
  else (.error notConnectedMessage, s)

/-! Substring test used to state claims about query strings. -/

/-- Whether the first list is an initial segment of the second. -/
def leadMatch : List Char → List Char → Bool
  | [], _ => true
  | _ :: _, [] => false
  | p :: pt, h :: t => (p == h) && leadMatch pt t

/-- Whether `pat` occurs as a contiguous run inside the list. -/
def strContainsAux (pat : List Char) : List Char → Bool
  | [] => pat.isEmpty
  | h :: t => leadMatch pat (h :: t) || strContainsAux pat t

/-- Substring containment on strings. -/
def strContains (s pat : String) : Bool := strContainsAux pat.data s.data

/-! Helper lemmas on the Except monad and throwing maps. -/

theorem exceptBind_ok {ε α β : Type} (a : α) (f : α → Except ε β) :
    (Except.ok a >>= f) = f a := rfl

theorem exceptBind_err {ε α β : Type} (e : ε) (f : α → Except ε β) :
    ((Except.error e : Except ε α) >>= f) = .error e := rfl

theorem exceptPure_eq_ok {ε α : Type} (a : α) : (pure a : Except ε α) = .ok a := rfl

theorem jsMapListE_map_ok {α β : Type} (f : JsVal → Except Unit β) (g : α → JsVal)
    (h : α → β) (l : List α) (hp : ∀ x ∈ l, f (g x) = .ok (h x)) :
    jsMapListE f (l.map g) = .ok (l.map h) := by
  induction l with
  | nil => rfl
  | cons a t ih =>
    have ha := hp a (List.mem_cons_self a t)
    have ht := ih fun x hx => hp x (List.mem_cons_of_mem a hx)
    simp [jsMapListE, ha, ht, exceptBind_ok, exceptPure_eq_ok]

/-! Concrete xml2js-shaped metadata documents, used to state the claims about
`extractMetadata`. The shapes mirror what xml2js produces for an OData
metadata document: the root element is an object, child elements are wrapped
in arrays, attributes sit under the dollar key. -/

/-- A parsed Property element with given Name and Type attributes and an
optional Nullable attribute. -/
def mkProp (nm ty : String) (nullable : Option String) : JsVal :=
  .jobj [("$", .jobj ([("Name", .jstr nm), ("Type", .jstr ty)] ++
    (match nullable with
     | some v => [("Nullable", .jstr v)]
     | none => [])))]

/-- A parsed EntityType element with given Name and property triples
(name, type, optional Nullable attribute). -/
def mkEntityType (nm : String) (props : List (String × String × Option String)) : JsVal :=
  .jobj [("$", .jobj [("Name", .jstr nm)]),
         ("Property", .jarr (props.map fun p => mkProp p.1 p.2.1 p.2.2))]

/-- A parsed metadata document holding the given entity types and no
entity container. -/
def mkMetadataDoc (ents : List (String × List (String × String × Option String))) : JsVal :=
  .jobj [("edmx:Edmx", .jobj [("edmx:DataServices", .jarr [.jobj [("Schema",
    .jarr [.jobj [("EntityType", .jarr (ents.map fun e => mkEntityType e.1 e.2))]])]])])]

theorem extractPropertyE_mk (nm ty : String) (nu : Option String) :
    extractPropertyE (mkProp nm ty nu) = .ok ⟨.jstr nm, .jstr ty, nu != some "false"⟩ := by
  cases nu <;> rfl

theorem extractEntityE_mk (nm : String) (props : List (String × String × Option String)) :
    extractEntityE (mkEntityType nm props)
      = .ok ⟨.jstr nm, props.map fun p => ⟨.jstr p.1, .jstr p.2.1, p.2.2 != some "false"⟩⟩ := by
  have hm := jsMapListE_map_ok extractPropertyE (fun p => mkProp p.1 p.2.1 p.2.2)
    (fun p => (⟨.jstr p.1, .jstr p.2.1, p.2.2 != some "false"⟩ : ODataProperty)) props
    (fun p _ => extractPropertyE_mk p.1 p.2.1 p.2.2)
  simp [extractEntityE, mkEntityType, jsGetE, lookupField, jsOr, jsTruthy, jsMapE, hm,
    exceptBind_ok, exceptPure_eq_ok]

/-! Claim theorems. -/

/-- Claim C1, counterexample: for queryEntitySet with top 5 and filter
`Price gt 10` and everything else absent, the built URL does not contain the
substring `$top=5&$filter=Price%20gt%2010` claimed by the spec:
URLSearchParams form-encodes the dollar sign as %24 and the space as a plus
sign, and the filter parameter is appended before the top parameter. -/
theorem c1_counterexample :
    strContains
      (queryEntitySetUrl "SRV" "Products" ⟨none, some "Price gt 10", none, some 5, none, none⟩)
      "$top=5&$filter=Price%20gt%2010" = false := by decide

/-- Claim C1, amended: the query string built for options with top 5 and
filter `Price gt 10` (all other options absent) is exactly
`%24filter=Price+gt+10&%24top=5` — filter before top, dollar signs
form-encoded as %24 and the spaces as plus signs — and the absent options
contribute nothing to it. -/
theorem c1_amended (serviceName entitySet : String) :
    queryEntitySetUrl serviceName entitySet ⟨none, some "Price gt 10", none, some 5, none, none⟩
      = serviceName ++ "/" ++ entitySet ++ "?%24filter=Price+gt+10&%24top=5" := by
  have h : queryString ⟨none, some "Price gt 10", none, some 5, none, none⟩
      = "%24filter=Price+gt+10&%24top=5" := by decide
  simp [queryEntitySetUrl, h]

/-- Claim C2: getEntity, updateEntity and deleteEntity serialize any keyValues
record to the identical key predicate — each entry `key='encodedValue'` with
the value URL-encoded, entries comma-joined, appended in parentheses to the
serviceName/entitySet path — and the keyValues record with single entry ID=42
yields the predicate `ID='42'`. -/
theorem c2_key_predicate_shared (serviceName entitySet : String)
    (keyValues : List (String × String)) :
    getEntityUrl serviceName entitySet keyValues
        = serviceName ++ "/" ++ entitySet ++ "(" ++ keyPredicate keyValues ++ ")"
  ∧ updateEntityUrl serviceName entitySet keyValues
        = serviceName ++ "/" ++ entitySet ++ "(" ++ keyPredicate keyValues ++ ")"
  ∧ deleteEntityUrl serviceName entitySet keyValues
        = serviceName ++ "/" ++ entitySet ++ "(" ++ keyPredicate keyValues ++ ")"
  ∧ keyPredicate [("ID", "42")] = "ID=" ++ squote ++ "42" ++ squote :=
  ⟨rfl, rfl, rfl, by decide⟩

/-- Claim C3: an operation on a connected client that receives a 401 response
ends with the session state fully cleared (connected false, token null, cookie
jar empty), and on that cleared state every data operation fails with the
not-connected error without consulting the network. -/
theorem c3_401_clears_session (s : ClientState) (serviceName entitySet : String)
    (o : ODataQueryOptions) (e : HttpFailure)
    (hconn : s.connected = true) (h401 : e.status = some 401) :
    (performExchange s (.failure e)).1 = (⟨false, none, []⟩ : ClientState)
  ∧ (queryEntitySet s serviceName entitySet o (.failure e)).2 = (⟨false, none, []⟩ : ClientState)
  ∧ (∀ sn es o2 net,
      (queryEntitySet (⟨false, none, []⟩ : ClientState) sn es o2 net).1 = .error notConnectedMessage)
  ∧ (∀ sn es kv net,
      (getEntity (⟨false, none, []⟩ : ClientState) sn es kv net).1 = .error notConnectedMessage)
  ∧ (∀ sn es d net,
      (createEntity (⟨false, none, []⟩ : ClientState) sn es d net).1 = .error notConnectedMessage)
  ∧ (∀ sn es kv d net,
      (updateEntity (⟨false, none, []⟩ : ClientState) sn es kv d net).1 = .error notConnectedMessage)
  ∧ (∀ sn es kv net,
      (deleteEntity (⟨false, none, []⟩ : ClientState) sn es kv net).1 = .error notConnectedMessage)
  ∧ (∀ sn fn ps net,
      (callFunction (⟨false, none, []⟩ : ClientState) sn fn ps net).1 = .error notConnectedMessage) := by
  refine ⟨?_, ?_, ?_, ?_, ?_, ?_, ?_, ?_⟩
  · simp [performExchange, applyResponseErr, h401]
  · simp [queryEntitySet, hconn, performExchange, applyResponseErr, h401]
  all_goals intros; rfl

/-- Witness for claim C3 at a concrete connected state and a concrete 401
failure. -/
theorem c3_witness :
    (queryEntitySet (⟨true, some "tok", ["k=v"]⟩ : ClientState) "SRV" "Products"
        ⟨none, none, none, none, none, none⟩
        (.failure ⟨some 401, "Unauthorized", false, ""⟩)).2 = (⟨false, none, []⟩ : ClientState) :=
  (c3_401_clears_session ⟨true, some "tok", ["k=v"]⟩ "SRV" "Products"
    ⟨none, none, none, none, none, none⟩ ⟨some 401, "Unauthorized", false, ""⟩ rfl rfl).2.1

/-- Claim C4: when the catalog probe fails and the base probe returns 401,
connect raises the authentication-failure error and leaves the session state
fully cleared; and every failure path of connect leaves the session state
fully cleared. -/
theorem c4_connect_failure_clears (enableCSRF : Bool) (s0 : ClientState)
    (csrfO : HttpOutcome) (cf e : HttpFailure) (h401 : e.status = some 401) :
    connect enableCSRF s0 csrfO (.failure cf) (.failure e)
        = (.error ("Failed to connect to SAP OData service: " ++
            "Authentication failed - check username/password"), (⟨false, none, []⟩ : ClientState))
  ∧ (∀ catalogO baseO msg, (connect enableCSRF s0 csrfO catalogO baseO).1 = .error msg →
      (connect enableCSRF s0 csrfO catalogO baseO).2 = (⟨false, none, []⟩ : ClientState)) := by
  constructor
  · simp [connect, performExchange, applyResponseErr, h401]
  · intro catalogO baseO msg h
    cases catalogO with
    | success r => simp [connect, performExchange] at h
    | failure cf2 =>
      cases baseO with
      | success r2 => simp [connect, performExchange] at h
      | failure e2 =>
        by_cases h404 : e2.status = some 404
        · simp [connect, performExchange, h404] at h
        · by_cases h401b : e2.status = some 401
          · simp [connect, performExchange, h404, h401b]
          · by_cases h403 : e2.status = some 403
            · simp [connect, performExchange, h404, h401b, h403]
            · simp [connect, performExchange, h404, h401b, h403]

/-- Witness for claim C4 at concrete inputs: wrong credentials surface as the
wrapped authentication-failure message with the state cleared. -/
theorem c4_witness :
    connect true (⟨false, none, []⟩ : ClientState)
        (.success ⟨.undefined, none, none⟩) (.failure ⟨none, "", true, "boom"⟩)
        (.failure ⟨some 401, "Unauthorized", false, ""⟩)
      = (.error ("Failed to connect to SAP OData service: " ++
          "Authentication failed - check username/password"), (⟨false, none, []⟩ : ClientState)) :=
  (c4_connect_failure_clears true ⟨false, none, []⟩ (.success ⟨.undefined, none, none⟩)
    ⟨none, "", true, "boom"⟩ ⟨some 401, "Unauthorized", false, ""⟩ rfl).1

/-- Claim C5: when the catalog probe fails and the base probe answers 404,
connect classifies the 404 as success — it returns ok and sets connected —
and a subsequent isConnected whose probe also answers 404 returns true. -/
theorem c5_connect_404_success (enableCSRF : Bool) (s0 : ClientState)
    (csrfO : HttpOutcome) (cf e pe : HttpFailure)
    (h404 : e.status = some 404) (hp : pe.status = some 404) :
    (connect enableCSRF s0 csrfO (.failure cf) (.failure e)).1 = .ok ()
  ∧ ((connect enableCSRF s0 csrfO (.failure cf) (.failure e)).2).connected = true
  ∧ (isConnected (connect enableCSRF s0 csrfO (.failure cf) (.failure e)).2 (.failure pe)).1
      = true := by
  refine ⟨?_, ?_, ?_⟩ <;>
    simp [connect, isConnected, performExchange, applyResponseErr, h404, hp]

/-- Witness for claim C5 at concrete inputs. -/
theorem c5_witness :
    (isConnected (connect true (⟨false, none, []⟩ : ClientState)
        (.success ⟨.undefined, none, none⟩) (.failure ⟨none, "", true, "x"⟩)
        (.failure ⟨some 404, "Not Found", false, ""⟩)).2
      (.failure ⟨some 404, "Not Found", false, ""⟩)).1 = true :=
  (c5_connect_404_success true ⟨false, none, []⟩ (.success ⟨.undefined, none, none⟩)
    ⟨none, "", true, "x"⟩ ⟨some 404, "Not Found", false, ""⟩
    ⟨some 404, "Not Found", false, ""⟩ rfl rfl).2.2

/-- Claim C7: in the model extracted by getServiceMetadata, a property has
nullable false exactly when its source Property element carries the attribute
Nullable with the exact string value false; every property not so marked has
nullable true. -/
theorem c7_nullable_extraction (ents : List (String × List (String × String × Option String))) :
    extractMetadata (mkMetadataDoc ents)
      = ⟨ents.map (fun e => ⟨.jstr e.1,
            e.2.map fun p => ⟨.jstr p.1, .jstr p.2.1, p.2.2 != some "false"⟩⟩),
         [], none⟩
  ∧ (∀ nu : Option String, ((nu != some "false") = false ↔ nu = some "false")) := by
  constructor
  · have hm := jsMapListE_map_ok extractEntityE (fun e => mkEntityType e.1 e.2)
      (fun e => (⟨.jstr e.1,
        e.2.map fun p => ⟨.jstr p.1, .jstr p.2.1, p.2.2 != some "false"⟩⟩ : ODataEntity)) ents
      (fun e _ => extractEntityE_mk e.1 e.2)
    simp [extractMetadata, extractMetadataCore, mkMetadataDoc, schemaOf, optGet, optIdx,
      lookupField, jsGetE, jsOr, jsTruthy, jsMapE, jsMapListE, hm,
      exceptBind_ok, exceptPure_eq_ok]
  · intro nu
    cases nu with
    | none => simp
    | some v => simp

/-- A parse tree whose schema node is truthy but whose EntityType member is a
string, so that calling map on it throws during extraction. -/
def badMetadataTree : JsVal :=
  .jobj [("edmx:Edmx", .jobj [("edmx:DataServices", .jarr [.jobj [("Schema",
    .jarr [.jobj [("EntityType", .jstr "oops")]])]])])]

/-- Claim C8, counterexample: an XML parse failure (the xml2js callback
rejecting) is not swallowed by getServiceMetadata — it propagates as a thrown,
wrapped error instead of yielding an empty model. -/
theorem c8_counterexample :
    (getServiceMetadata (⟨true, none, []⟩ : ClientState) (.success ⟨.undefined, none, none⟩)
        (.error "Non-whitespace before first tag")).1
      = .error "Failed to get service metadata: Non-whitespace before first tag" := rfl

/-- Claim C8, amended: only failures of the extraction step (an unexpected
parse-tree shape) degrade to the empty model annotated with the raw parse
tree; a failure of the XML parse itself propagates from getServiceMetadata as
a thrown error wrapping the parser message. -/
theorem c8_metadata_failures (s : ClientState) (r : HttpResponse) (pm : String) (tree : JsVal)
    (hconn : s.connected = true) :
    (getServiceMetadata s (.success r) (.error pm)).1
        = .error ("Failed to get service metadata: " ++
            (if pm == "" then "Unknown error" else pm))
  ∧ (getServiceMetadata s (.success r) (.ok tree)).1 = .ok (extractMetadata tree)
  ∧ (jsTruthy (schemaOf tree) = true → extractMetadataCore tree = .error () →
      extractMetadata tree = ⟨[], [], some tree⟩) := by
  refine ⟨?_, ?_, ?_⟩
  · simp [getServiceMetadata, hconn, performExchange]
  · simp [getServiceMetadata, hconn, performExchange]
  · intro ht hc
    simp [extractMetadata, ht, hc]

/-- Witness for claim C8 at concrete inputs: a malformed tree shape degrades
to the empty model carrying the raw tree. -/
theorem c8_witness :
    extractMetadata badMetadataTree = ⟨[], [], some badMetadataTree⟩ :=
  (c8_metadata_failures ⟨true, none, []⟩ ⟨.undefined, none, none⟩ "" badMetadataTree rfl).2.2
    rfl rfl

/-- Claim C9, counterexample: isConnected on a client whose connected flag is
already false answers false immediately and performs zero network requests,
so not every call is a live re-probe. -/
theorem c9_counterexample :
    isConnected (⟨false, some "tok", ["a=b"]⟩ : ClientState) (.success ⟨.undefined, none, none⟩)
      = (false, ⟨false, some "tok", ["a=b"]⟩, 0) := rfl

/-- Claim C9, amended: when the cached connected flag is false, isConnected
returns false with no network round-trip; when it is true, isConnected
performs exactly one probe request and classifies it — success or 404 keep
the connection (returns true), any other failure, 401 and 403 included, flips
the state to disconnected and returns false. -/
theorem c9_amended (s : ClientState) (probe : HttpOutcome) :
    (s.connected = false → isConnected s probe = (false, s, 0))
  ∧ (s.connected = true →
      (isConnected s probe).2.2 = 1
      ∧ (∀ r, probe = .success r → (isConnected s probe).1 = true)
      ∧ (∀ e, probe = .failure e → e.status = some 404 → (isConnected s probe).1 = true)
      ∧ (∀ e, probe = .failure e → e.status ≠ some 404 →
          (isConnected s probe).1 = false
          ∧ ((isConnected s probe).2.1).connected = false)) := by
  constructor
  · intro h; simp [isConnected, h]
  · intro h
    refine ⟨?_, ?_, ?_, ?_⟩
    · cases probe with
      | success r => simp [isConnected, h, performExchange]
      | failure e =>
        by_cases h404 : e.status = some 404
        · simp [isConnected, h, performExchange, h404]
        · by_cases hauth : e.status = some 401 ∨ e.status = some 403
          · simp [isConnected, h, performExchange, h404, hauth]
          · simp [isConnected, h, performExchange, h404, hauth]
    · intro r hr; subst hr; simp [isConnected, h, performExchange]
    · intro e he h404; subst he; simp [isConnected, h, performExchange, h404]
    · intro e he h404; subst he
      by_cases hauth : e.status = some 401 ∨ e.status = some 403
      · constructor <;> simp [isConnected, h, performExchange, h404, hauth]
      · constructor <;> simp [isConnected, h, performExchange, h404, hauth]

/-- Witness for claim C9 at concrete states: no probe for a disconnected
client, and a 404 probe keeps a connected client connected. -/
theorem c9_witness :
    isConnected (⟨false, none, []⟩ : ClientState) (.failure ⟨some 404, "NF", false, ""⟩)
        = (false, ⟨false, none, []⟩, 0)
  ∧ (isConnected (⟨true, none, []⟩ : ClientState) (.failure ⟨some 404, "NF", false, ""⟩)).1
        = true :=
  ⟨(c9_amended ⟨false, none, []⟩ (.failure ⟨some 404, "NF", false, ""⟩)).1 rfl,
   ((c9_amended ⟨true, none, []⟩ (.failure ⟨some 404, "NF", false, ""⟩)).2 rfl).2.2.1
     ⟨some 404, "NF", false, ""⟩ rfl rfl⟩

/-- Claim C10: queryEntitySet tests option presence by JavaScript truthiness —
a zero top or skip, an empty filter string, an empty select list or an empty
expand list contributes no query parameter and is indistinguishable from the
option being absent. -/
theorem c10_truthiness_options (o : ODataQueryOptions) :
    (o.top = some 0 →
      buildQueryParams o = buildQueryParams ⟨o.select, o.filter, o.orderby, none, o.skip, o.expand⟩
      ∧ ∀ v, ("$top", v) ∉ buildQueryParams o)
  ∧ (o.skip = some 0 →
      buildQueryParams o = buildQueryParams ⟨o.select, o.filter, o.orderby, o.top, none, o.expand⟩
      ∧ ∀ v, ("$skip", v) ∉ buildQueryParams o)
  ∧ (o.filter = some "" →
      buildQueryParams o = buildQueryParams ⟨o.select, none, o.orderby, o.top, o.skip, o.expand⟩
      ∧ ∀ v, ("$filter", v) ∉ buildQueryParams o)
  ∧ (o.select = some [] →
      buildQueryParams o = buildQueryParams ⟨none, o.filter, o.orderby, o.top, o.skip, o.expand⟩
      ∧ ∀ v, ("$select", v) ∉ buildQueryParams o)
  ∧ (o.expand = some [] →
      buildQueryParams o = buildQueryParams ⟨o.select, o.filter, o.orderby, o.top, o.skip, none⟩
      ∧ ∀ v, ("$expand", v) ∉ buildQueryParams o) := by
  obtain ⟨sel, fil, ord, top, sk, ex⟩ := o
  refine ⟨?_, ?_, ?_, ?_, ?_⟩ <;> intro h <;> subst h
  · refine ⟨by simp [buildQueryParams], ?_⟩
    intro v hv
    rcases sel with _ | l <;> rcases fil with _ | f <;> rcases ord with _ | d <;>
      rcases sk with _ | k <;> rcases ex with _ | x <;>
      simp [buildQueryParams] at hv <;> split_ifs at hv <;> simp_all
  · refine ⟨by simp [buildQueryParams], ?_⟩
    intro v hv
    rcases sel with _ | l <;> rcases fil with _ | f <;> rcases ord with _ | d <;>
      rcases top with _ | n <;> rcases ex with _ | x <;>
      simp [buildQueryParams] at hv <;> split_ifs at hv <;> simp_all
  · refine ⟨by simp [buildQueryParams], ?_⟩
    intro v hv
    rcases sel with _ | l <;> rcases ord with _ | d <;> rcases top with _ | n <;>
      rcases sk with _ | k <;> rcases ex with _ | x <;>
      simp [buildQueryParams] at hv <;> split_ifs at hv <;> simp_all
  · refine ⟨by simp [buildQueryParams], ?_⟩
    intro v hv
    rcases fil with _ | f <;> rcases ord with _ | d <;> rcases top with _ | n <;>
      rcases sk with _ | k <;> rcases ex with _ | x <;>
      simp [buildQueryParams] at hv <;> split_ifs at hv <;> simp_all
  · refine ⟨by simp [buildQueryParams], ?_⟩
    intro v hv
    rcases sel with _ | l <;> rcases fil with _ | f <;> rcases ord with _ | d <;>
      rcases top with _ | n <;> rcases sk with _ | k <;>
      simp [buildQueryParams] at hv <;> split_ifs at hv <;> simp_all

/-- Witness for claim C10 at a concrete options record in which every option
is present but zero or empty. -/
theorem c10_witness :
    buildQueryParams ⟨some [], some "", none, some 0, some 0, some []⟩
        = buildQueryParams ⟨some [], some "", none, none, some 0, some []⟩
  ∧ ∀ v, ("$top", v) ∉ buildQueryParams ⟨some [], some "", none, some 0, some 0, some []⟩ :=
  (c10_truthiness_options ⟨some [], some "", none, some 0, some 0, some []⟩).1 rfl

/-- Claim C6: the result of getServices carries a source tag naming the
strategy that produced it. When the first catalog variant answers with a
results array of two records, the result is exactly those two mapped
descriptors tagged gateway_catalog with the answering path recorded; when all
four catalog variants fail and exactly the first two well-known names answer
the existence probe, the result is those two probe descriptors tagged
common_services_test; when everything fails, the result is an empty service
list tagged none_found together with a non-empty diagnostic message. -/
theorem c6_getServices_sources (s : ClientState) (hconn : s.connected = true)
    (baseUrl : String) (id1 t1 v1 id2 t2 v2 : String)
    (ht1 : t1 ≠ "") (ht2 : t2 ≠ "")
    (ch : Option String) (cc : Option (List String))
    (c2 c3 c4 : HttpOutcome) (commonOs : List HttpOutcome)
    (f1 f2 f3 f4 : HttpFailure) (r1 r2 : HttpResponse)
    (g3 g4 g5 g6 g7 g8 g9 : HttpFailure)
    (k1 k2 k3 k4 k5 k6 k7 k8 k9 : HttpFailure) :
    (getServices baseUrl s
        [.success ⟨.jobj [("d", .jobj [("results", .jarr
            [.jobj [("ID", .jstr id1), ("Title", .jstr t1), ("Version", .jstr v1)],
             .jobj [("ID", .jstr id2), ("Title", .jstr t2), ("Version", .jstr v2)]])])],
            ch, cc⟩, c2, c3, c4] commonOs).1
      = .ok ⟨[⟨.jstr id1, .jstr t1, .jstr v1, baseUrl ++ id1 ++ "/"⟩,
              ⟨.jstr id2, .jstr t2, .jstr v2, baseUrl ++ id2 ++ "/"⟩],
             some "gateway_catalog", some "../iwfnd/catalogservice;v=2/ServiceCollection", none⟩
  ∧ (getServices baseUrl s [.failure f1, .failure f2, .failure f3, .failure f4]
        [.success r1, .success r2, .failure g3, .failure g4, .failure g5, .failure g6,
         .failure g7, .failure g8, .failure g9]).1
      = .ok ⟨[⟨.jstr "GWSAMPLE_BASIC", .jstr "GWSAMPLE_BASIC", .undefined,
                baseUrl ++ "GWSAMPLE_BASIC" ++ "/"⟩,
              ⟨.jstr "GWDEMO", .jstr "GWDEMO", .undefined, baseUrl ++ "GWDEMO" ++ "/"⟩],
             some "common_services_test", none, none⟩
  ∧ ((getServices baseUrl s [.failure f1, .failure f2, .failure f3, .failure f4]
        [.failure k1, .failure k2, .failure k3, .failure k4, .failure k5, .failure k6,
         .failure k7, .failure k8, .failure k9]).1
      = .ok ⟨[], some "none_found", none, some noneFoundMessage⟩
    ∧ noneFoundMessage ≠ "") := by
  have e1 : (t1 == "") = false := beq_eq_false_iff_ne.mpr ht1
  have e2 : (t2 == "") = false := beq_eq_false_iff_ne.mpr ht2
  refine ⟨?_, ?_, ?_, ?_⟩
  · simp [getServices, hconn, catalogPaths, foldCatalog, performExchange, catalogStep,
      optGet, lookupField, jsTruthy, jsMapE, jsMapListE, extractCatalogRecord, jsGetE,
      jsToString, e1, e2, exceptBind_ok, exceptPure_eq_ok]
  · simp [getServices, hconn, catalogPaths, commonServices, foldCatalog, foldCommon,
      performExchange]
  · simp [getServices, hconn, catalogPaths, commonServices, foldCatalog, foldCommon,
      performExchange]
  · simp [noneFoundMessage]

/-- Witness for claim C6 at fully concrete inputs. -/
theorem c6_witness :
    (getServices "http://h/" (⟨true, none, []⟩ : ClientState)
        [.success ⟨.jobj [("d", .jobj [("results", .jarr
            [.jobj [("ID", .jstr "SVC1"), ("Title", .jstr "One"), ("Version", .jstr "1")],
             .jobj [("ID", .jstr "SVC2"), ("Title", .jstr "Two"), ("Version", .jstr "2")]])])],
            none, none⟩,
         .failure ⟨some 404, "NF", false, ""⟩, .failure ⟨some 404, "NF", false, ""⟩,
         .failure ⟨some 404, "NF", false, ""⟩] []).1
      = .ok ⟨[⟨.jstr "SVC1", .jstr "One", .jstr "1", "http://h/" ++ "SVC1" ++ "/"⟩,
              ⟨.jstr "SVC2", .jstr "Two", .jstr "2", "http://h/" ++ "SVC2" ++ "/"⟩],
             some "gateway_catalog", some "../iwfnd/catalogservice;v=2/ServiceCollection",
             none⟩ :=
  (c6_getServices_sources ⟨true, none, []⟩ rfl "http://h/" "SVC1" "One" "1" "SVC2" "Two" "2"
    (by decide) (by decide) none none
    (.failure ⟨some 404, "NF", false, ""⟩) (.failure ⟨some 404, "NF", false, ""⟩)
    (.failure ⟨some 404, "NF", false, ""⟩) []
    ⟨some 404, "NF", false, ""⟩ ⟨some 404, "NF", false, ""⟩ ⟨some 404, "NF", false, ""⟩
    ⟨some 404, "NF", false, ""⟩ ⟨.undefined, none, none⟩ ⟨.undefined, none, none⟩
    ⟨some 404, "NF", false, ""⟩ ⟨some 404, "NF", false, ""⟩ ⟨some 404, "NF", false, ""⟩
    ⟨some 404, "NF", false, ""⟩ ⟨some 404, "NF", false, ""⟩ ⟨some 404, "NF", false, ""⟩
    ⟨some 404, "NF", false, ""⟩ ⟨some 404, "NF", false, ""⟩ ⟨some 404, "NF", false, ""⟩
    ⟨some 404, "NF", false, ""⟩ ⟨some 404, "NF", false, ""⟩ ⟨some 404, "NF", false, ""⟩
    ⟨some 404, "NF", false, ""⟩ ⟨some 404, "NF", false, ""⟩ ⟨some 404, "NF", false, ""⟩
    ⟨some 404, "NF", false, ""⟩).1

end SAPODataClient
